import Mathlib

/-!
Shallow embedding of the goaux/rungroup task-group library.

The repository has two variants of the core:
  * v1 (package rungroup): Group with a plain cancellable context
    (context.WithCancel), a sync.Once guarded error record (setResult),
    a doNotReuse flag set by Wait, and panics for zero-value use and reuse.
  * v2 (package rungroup/v2): Group with a cause-carrying cancellable
    context (context.WithCancelCause), lazy zero-value initialization under
    a mutex (getContext), Cancel with a caller supplied cause wrapped by
    stacktrace.NewError, Close, SetTimeout, and the policy registrations
    GoCancelOnFinish / GoCancelOnSuccess / GoCancelOnError.

Concurrency is modelled sequentially: every exported operation is a state
transition on the Group record; the body of a spawned task is a separate
transition parameterized by the result value the task returns (and, for
timeout bodies, by which select branch fires first, a scheduler choice).
Blocking of Wait is expressed as the hypothesis that the tracked task
count is zero when Wait returns.
-/

/-- Error values flowing through the library: the canonical contexts
errors (context.Canceled, context.DeadlineExceeded), the package level
ErrClosed of v2, arbitrary task supplied errors, and the wrapper produced
by stacktrace.NewError, which attaches a call-site to an inner error. -/
inductive Err where
  | canceled
  | deadlineExceeded
  | closed
  | user (tag : Nat)
  | traced (inner : Err) (callsite : Nat)
deriving DecidableEq, Repr

/-- Model of errors.Is over Err: an error matches a target if it equals it
or if unwrapping traced wrappers (stacktrace errors unwrap to their inner
error) eventually reaches it. -/
def Err.is : Err → Err → Bool
  | .traced inner cs, target => (Err.traced inner cs == target) || Err.is inner target
  | e, target => e == target

namespace V2

/-- Model of a context handle produced by context.WithCancelCause: the
field cause is none while the context is live and some e once it has been
cancelled with cause e (context.Cause returns e thereafter). -/
structure Ctx where
  cause : Option Err
deriving DecidableEq, Repr

/-- Whether the context has been cancelled. -/
def Ctx.cancelled (c : Ctx) : Bool := c.cause.isSome

/-- Model of the CancelCauseFunc returned by context.WithCancelCause: the
first invocation cancels the context and records its argument as the
cause; every later invocation is a no-op. -/
def Ctx.cancel (c : Ctx) (e : Err) : Ctx :=
  if c.cause.isSome then c else ⟨some e⟩

/-- Model of context.Cause. -/
def Ctx.causeOf (c : Ctx) : Option Err := c.cause

/-- Model of context.Background, a context that is never cancelled. -/
def background : Ctx := ⟨none⟩

/-- Model of context.WithCancelCause applied to a parent: the child starts
live when the parent is live, and starts cancelled with the parent cause
when the parent is already cancelled. -/
def withCancelCause (parent : Ctx) : Ctx := ⟨parent.cause⟩

/-- State of a v2 Group. ctx is none for the zero value (the Go struct
fields ctx and cancel are nil) and some c once initialized. tracked is the
count of outstanding tasks registered through gr.g.Go, the
waitgroup.Sync used by Go and hence by all the policy registrations;
Wait blocks until it reaches zero. untracked counts goroutines the Group
spawned with a bare go statement (SetTimeout does this), which the
waitgroup does not see. -/
structure Group where
  ctx : Option Ctx
  tracked : Nat
  untracked : Nat
deriving DecidableEq, Repr

/-- Model of rungroup.New: derives a cause-carrying cancellable context
from the parent and stores it in a fresh Group. -/
def New (parent : Ctx) : Group :=
  { ctx := some (withCancelCause parent), tracked := 0, untracked := 0 }

/-- The zero value of the Group struct: nil context, empty waitgroup. -/
def zeroGroup : Group := { ctx := none, tracked := 0, untracked := 0 }

/-- Model of Group.getContext: under the mutex, if the context is nil it
is created from context.Background via context.WithCancelCause, exactly
once; the context is returned together with the updated Group. -/
def getContext (g : Group) : Ctx × Group :=
  match g.ctx with
  | some c => (c, g)
  | none =>
    let c := withCancelCause background
    (c, { g with ctx := some c })

/-- Effect of invoking the stored gr.cancel field (the CancelCauseFunc)
with the given cause. Every code path of the source invokes it only after
getContext has initialized the context, so the none branch is unreachable
in the flows modelled below. -/
def rawCancel (g : Group) (cause : Err) : Group :=
  match g.ctx with
  | some c => { g with ctx := some (c.cancel cause) }
  | none => g

/-- Model of Group.Cancel: ensures initialization via getContext,
normalizes a nil cause to context.Canceled, wraps the cause with
stacktrace.NewError at the call site cs, and invokes gr.cancel. -/
def Cancel (g : Group) (cause : Option Err) (cs : Nat) : Group :=
  let g := (getContext g).2
  let c := cause.getD Err.canceled
  rawCancel g (Err.traced c cs)

/-- Model of Group.Close: calls Cancel with stacktrace.NewError applied to
ErrClosed at call site cs₁ (Cancel then wraps once more at its own call
site cs₂). -/
def Close (g : Group) (cs₁ cs₂ : Nat) : Group :=
  Cancel g (some (Err.traced Err.closed cs₁)) cs₂

/-- Registration effect of Group.Go: getContext, then gr.g.Go spawns the
task in a new goroutine tracked by the waitgroup. The body of the spawned
task is the task function itself applied to the group context; its
completion is the taskDone transition below. -/
def Go (g : Group) : Group :=
  let g := (getContext g).2
  { g with tracked := g.tracked + 1 }

/-- Completion of one tracked task: the waitgroup counter drops by one. -/
def taskDone (g : Group) : Group :=
  { g with tracked := g.tracked - 1 }

/-- Model of Group.Wait: getContext, block on the waitgroup (expressed by
the hypothesis tracked = 0 where a theorem talks about Wait returning),
and return context.Cause of the group context. -/
def Wait (g : Group) : Option Err × Group :=
  let (c, g) := getContext g
  (c.causeOf, g)

/-- Registration effect of Group.SetTimeout: getContext, then a bare go
statement spawns a goroutine that the waitgroup does not track. -/
def SetTimeout (g : Group) : Group :=
  let g := (getContext g).2
  { g with untracked := g.untracked + 1 }

/-- Body of the goroutine spawned by SetTimeout: a select between the
timer channel and ctx.Done. timerFirst is the scheduler choice of which
branch fires; the ctx.Done branch can only fire once the group context is
cancelled. On the timer branch it invokes gr.cancel with
context.DeadlineExceeded wrapped at the SetTimeout call site; on the
ctx.Done branch it does nothing. -/
def setTimeoutBody (g : Group) (timerFirst : Bool) (cs : Nat) : Group :=
  if timerFirst then rawCancel g (Err.traced Err.deadlineExceeded cs) else g

/-- Registration effect of Group.GoCancelOnFinish: it calls Group.Go with
a wrapped task, so registration is exactly the Go transition. -/
def GoCancelOnFinish (g : Group) : Group := Go g

/-- Registration effect of Group.GoCancelOnSuccess: delegates to Go. -/
def GoCancelOnSuccess (g : Group) : Group := Go g

/-- Registration effect of Group.GoCancelOnError: delegates to Go. -/
def GoCancelOnError (g : Group) : Group := Go g

/-- Body of the task wrapped by GoCancelOnFinish, at the point where the
inner task has returned result: a nil result is replaced by
context.Canceled, then gr.cancel is invoked with the error wrapped at the
registration call site. -/
def goCancelOnFinishBody (g : Group) (result : Option Err) (cs : Nat) : Group :=
  let e := result.getD Err.canceled
  rawCancel g (Err.traced e cs)

/-- Body of the task wrapped by GoCancelOnSuccess after the inner task
returned result: gr.cancel with a wrapped context.Canceled when the result
is nil, nothing otherwise. -/
def goCancelOnSuccessBody (g : Group) (result : Option Err) (cs : Nat) : Group :=
  match result with
  | none => rawCancel g (Err.traced Err.canceled cs)
  | some _ => g

/-- Body of the task wrapped by GoCancelOnError after the inner task
returned result: gr.cancel with the wrapped error when the result is
non-nil, nothing otherwise. -/
def goCancelOnErrorBody (g : Group) (result : Option Err) (cs : Nat) : Group :=
  match result with
  | none => g
  | some e => rawCancel g (Err.traced e cs)

/-- The cause durably recorded in the group context, none if the context
is uninitialized or live. -/
def recordedCause (g : Group) : Option Err :=
  match g.ctx with
  | some c => c.cause
  | none => none

/-- A group on which no cancellation has been recorded yet. -/
def cancelFree (g : Group) : Prop := recordedCause g = none

instance (g : Group) : Decidable (cancelFree g) := by
  unfold cancelFree; infer_instance

/-- Whether the group context is initialized and not yet cancelled, the
state in which the body of any registered task starts running in the
scenarios modelled here. -/
def liveCtx (g : Group) : Bool :=
  match g.ctx with
  | some c => c.cause.isNone
  | none => false

end V2

namespace V1

/-- State of a v1 Group. created models whether the Group was built by
New or NewTimeout (the cancel field is non-nil); the zero value has
created = false and every method panics on it via checkInitialized.
ctxCancelled is the state of the context.WithCancel child context.
errOnce and err model the sync.Once together with the err field written
inside it by setResult. doNotReuse is the flag Wait sets; tracked is the
waitgroup.Sync counter. -/
structure Group where
  created : Bool
  ctxCancelled : Bool
  errOnce : Bool
  err : Option Err
  doNotReuse : Bool
  tracked : Nat
deriving DecidableEq, Repr

/-- Panic message of checkInitialized. -/
def zeroValueMsg : String :=
  "A Group must be created by New or NewTimeout, zero value must not be used."

/-- Panic message of checkReuse (the doubled word is in the source). -/
def reuseMsg : String := "A Group must must not be reused."

/-- Model of rungroup.New (v1): context.WithCancel of the parent, all
bookkeeping zeroed. The parent context is not modelled further; task
results arising from parent cancellation enter through the result
parameters of task bodies. -/
def New : Group :=
  { created := true, ctxCancelled := false, errOnce := false, err := none,
    doNotReuse := false, tracked := 0 }

/-- The zero value of the v1 Group struct. -/
def zeroGroup : Group :=
  { created := false, ctxCancelled := false, errOnce := false, err := none,
    doNotReuse := false, tracked := 0 }

/-- Model of setResult: inside the sync.Once, record err (which may be
nil) and cancel the group context; after the Once has fired the call is a
no-op. -/
def setResult (g : Group) (e : Option Err) : Group :=
  if g.errOnce then g
  else { g with errOnce := true, err := e, ctxCancelled := true }

/-- Model of Group.Cancel (v1): checkInitialized, then
setResult(context.Canceled). A panic is an Except.error carrying the
panic message. -/
def Cancel (g : Group) : Except String Group :=
  if !g.created then .error zeroValueMsg
  else .ok (setResult g (some Err.canceled))

/-- Registration effect of Group.Go (v1): checkInitialized, checkReuse,
then wg.Go spawns the task tracked by the waitgroup. -/
def Go (g : Group) : Except String Group :=
  if !g.created then .error zeroValueMsg
  else if g.doNotReuse then .error reuseMsg
  else .ok { g with tracked := g.tracked + 1 }

/-- Completion of one v1 task whose function returned result: the spawned
wrapper calls setResult(result), then the waitgroup counter drops. -/
def taskFinish (g : Group) (result : Option Err) : Group :=
  let g := setResult g result
  { g with tracked := g.tracked - 1 }

/-- Model of Group.Wait (v1): checkInitialized, set doNotReuse, block on
the waitgroup (hypothesis tracked = 0 where a theorem talks about Wait
returning), call setResult(nil) so cancel is invoked even if Go never
was, and return the err field. -/
def Wait (g : Group) : Except String (Option Err × Group) :=
  if !g.created then .error zeroValueMsg
  else
    let g := { g with doNotReuse := true }
    let g := setResult g none
    .ok (g.err, g)

/-- Model of rungroup.NewTimeout: New followed by Go of the timeout task.
The body of that task derives a context.WithTimeout child of the group
context, blocks on its Done channel, and returns its Err; its effect on
the group state is taskFinish applied to newTimeoutTaskResult. -/
def NewTimeout : Except String Group := Go New

/-- Result returned by the task registered by NewTimeout: ctx.Err() of the
WithTimeout child once it is done. deadlineFirst is the scheduler choice:
when the duration elapses first the child reports
context.DeadlineExceeded; when the group context (or its parent) is
cancelled first the child reports context.Canceled. -/
def newTimeoutTaskResult (deadlineFirst : Bool) : Option Err :=
  if deadlineFirst then some Err.deadlineExceeded else some Err.canceled

end V1

/-! Helper lemmas shared by the claim theorems. -/

theorem Err.is_self (e : Err) : e.is e = true := by
  cases e <;> simp [Err.is]

theorem Err.is_traced_self (e : Err) (cs : Nat) : (Err.traced e cs).is e = true := by
  simp [Err.is, Err.is_self]

theorem V2.getContext_of_some {g : V2.Group} {c : V2.Ctx} (h : g.ctx = some c) :
    V2.getContext g = (c, g) := by
  simp [V2.getContext, h]

theorem V2.cancelFree_cases {g : V2.Group} (h : V2.cancelFree g) :
    g.ctx = none ∨ g.ctx = some ⟨none⟩ := by
  cases g with
  | mk ctx tr un =>
    cases ctx with
    | none => exact Or.inl rfl
    | some c =>
      cases c with
      | mk cause =>
        simp only [V2.cancelFree, V2.recordedCause] at h
        subst h
        exact Or.inr rfl

theorem V2.Cancel_of_cancelFree {g : V2.Group} (h : V2.cancelFree g)
    (c : Option Err) (cs : Nat) :
    V2.Cancel g c cs =
      { (V2.getContext g).2 with
        ctx := some ⟨some (Err.traced (c.getD Err.canceled) cs)⟩ } := by
  rcases V2.cancelFree_cases h with hc | hc <;>
    cases g <;>
    simp_all [V2.Cancel, V2.getContext, V2.rawCancel, V2.withCancelCause,
      V2.background, V2.Ctx.cancel]

theorem V2.Cancel_of_recorded {g : V2.Group} {e : Err} (h : V2.recordedCause g = some e)
    (c : Option Err) (cs : Nat) : V2.Cancel g c cs = g := by
  cases g with
  | mk ctx tr un =>
    cases ctx with
    | none => simp [V2.recordedCause] at h
    | some cx =>
      cases cx with
      | mk cause =>
        simp only [V2.recordedCause] at h
        subst h
        simp [V2.Cancel, V2.getContext, V2.rawCancel, V2.Ctx.cancel]

theorem V2.Wait_fst (g : V2.Group) : (V2.Wait g).1 = V2.recordedCause g := by
  cases g with
  | mk ctx tr un =>
    cases ctx <;>
      simp [V2.Wait, V2.getContext, V2.Ctx.causeOf, V2.recordedCause,
        V2.withCancelCause, V2.background]

theorem V2.Wait_snd (g : V2.Group) : (V2.Wait g).2 = (V2.getContext g).2 := by
  cases g with
  | mk ctx tr un =>
    cases ctx <;> simp [V2.Wait, V2.getContext]

theorem V2.recordedCause_Cancel_of_cancelFree {g : V2.Group} (h : V2.cancelFree g)
    (c : Option Err) (cs : Nat) :
    V2.recordedCause (V2.Cancel g c cs) = some (Err.traced (c.getD Err.canceled) cs) := by
  rw [V2.Cancel_of_cancelFree h c cs]
  simp [V2.recordedCause]

theorem Err.is_of_inner {e t : Err} (h : e.is t = true) (cs : Nat) :
    (Err.traced e cs).is t = true := by
  simp [Err.is, h]

/-- C1: exactly one cancellation cause is ever durably recorded per Group.
In v2, on a group with no recorded cause, the first Cancel records its
normalized, call-site wrapped cause; a second Cancel with any cause, nil
included, leaves the whole state unchanged, and the terminal Wait returns
the first cause, never the second. In v1 the same holds of setResult, the
sync.Once guarded recorder. -/
theorem C1_first_cancel_wins (g : V2.Group) (c₁ c₂ : Option Err) (cs₁ cs₂ : Nat)
    (hfree : V2.cancelFree g) (htr : g.tracked = 0)
    (g₁ : V1.Group) (e₁ e₂ : Option Err) (hone : g₁.errOnce = false) :
    V2.Cancel (V2.Cancel g c₁ cs₁) c₂ cs₂ = V2.Cancel g c₁ cs₁
    ∧ V2.recordedCause (V2.Cancel g c₁ cs₁) = some (Err.traced (c₁.getD Err.canceled) cs₁)
    ∧ (V2.Wait (V2.Cancel (V2.Cancel g c₁ cs₁) c₂ cs₂)).1
        = some (Err.traced (c₁.getD Err.canceled) cs₁)
    ∧ V1.setResult (V1.setResult g₁ e₁) e₂ = V1.setResult g₁ e₁
    ∧ (V1.setResult g₁ e₁).err = e₁ := by
  have hrec := V2.recordedCause_Cancel_of_cancelFree hfree c₁ cs₁
  have hsecond := V2.Cancel_of_recorded hrec c₂ cs₂
  refine ⟨hsecond, hrec, ?_, ?_, ?_⟩
  · rw [hsecond, V2.Wait_fst, hrec]
  · simp [V1.setResult, hone]
  · simp [V1.setResult, hone]

/-- Witness for C1: after Cancel with cause user 1 then Cancel with cause
user 2, Wait returns the wrapped user 1, and the v1 setResult keeps its
first argument. -/
theorem C1_first_cancel_wins_witness :
    (V2.Wait (V2.Cancel (V2.Cancel (V2.New V2.background) (some (Err.user 1)) 0)
        (some (Err.user 2)) 1)).1 = some (Err.traced (Err.user 1) 0)
    ∧ V1.setResult (V1.setResult V1.New (some (Err.user 1))) (some (Err.user 2))
        = V1.setResult V1.New (some (Err.user 1)) :=
  ⟨(C1_first_cancel_wins (V2.New V2.background) (some (Err.user 1)) (some (Err.user 2)) 0 1
      (by decide) (by decide) V1.New (some (Err.user 1)) (some (Err.user 2)) (by decide)).2.2.1,
   (C1_first_cancel_wins (V2.New V2.background) (some (Err.user 1)) (some (Err.user 2)) 0 1
      (by decide) (by decide) V1.New (some (Err.user 1)) (some (Err.user 2)) (by decide)).2.2.2.1⟩

/-- C8: Cancel with a nil cause normalizes it to context.Canceled before
recording; when Cancel(nil) is the first cancellation of a Group, the
terminal Wait returns the call-site wrapper of context.Canceled, a
non-nil error that errors.Is-matches the canonical cancelled cause. -/
theorem C8_nil_cause_normalized (g : V2.Group) (cs : Nat)
    (hfree : V2.cancelFree g) (htr : g.tracked = 0) :
    V2.recordedCause (V2.Cancel g none cs) = some (Err.traced Err.canceled cs)
    ∧ (V2.Wait (V2.Cancel g none cs)).1 = some (Err.traced Err.canceled cs)
    ∧ (Err.traced Err.canceled cs).is Err.canceled = true
    ∧ (V2.Wait (V2.Cancel g none cs)).1 ≠ none := by
  have hrec := V2.recordedCause_Cancel_of_cancelFree hfree none cs
  have hwait : (V2.Wait (V2.Cancel g none cs)).1 = some (Err.traced Err.canceled cs) := by
    rw [V2.Wait_fst]; exact hrec
  refine ⟨hrec, hwait, Err.is_traced_self Err.canceled cs, ?_⟩
  rw [hwait]; simp

/-- Witness for C8 on a fresh group built by New from Background. -/
theorem C8_nil_cause_normalized_witness :
    (V2.Wait (V2.Cancel (V2.New V2.background) none 7)).1 = some (Err.traced Err.canceled 7)
    ∧ (Err.traced Err.canceled 7).is Err.canceled = true :=
  ⟨(C8_nil_cause_normalized (V2.New V2.background) 7 (by decide) (by decide)).2.1,
   (C8_nil_cause_normalized (V2.New V2.background) 7 (by decide) (by decide)).2.2.1⟩

/-- C9: the wrapping of a recorded cause with call-site information is
purely informational: when the first cancellation records a non-nil cause
c, Wait returns the stacktrace wrapper of c and errors.Is still matches c
through the wrapper; after a first Close, Wait returns the doubly wrapped
ErrClosed, which errors.Is-matches ErrClosed. -/
theorem C9_cause_attribution (g g' : V2.Group) (c : Err) (cs cs₁ cs₂ : Nat)
    (hfree : V2.cancelFree g) (htr : g.tracked = 0)
    (hfree' : V2.cancelFree g') (htr' : g'.tracked = 0) :
    (V2.Wait (V2.Cancel g (some c) cs)).1 = some (Err.traced c cs)
    ∧ (Err.traced c cs).is c = true
    ∧ (V2.Wait (V2.Close g' cs₁ cs₂)).1 = some (Err.traced (Err.traced Err.closed cs₁) cs₂)
    ∧ (Err.traced (Err.traced Err.closed cs₁) cs₂).is Err.closed = true := by
  have h₁ : (V2.Wait (V2.Cancel g (some c) cs)).1 = some (Err.traced c cs) := by
    rw [V2.Wait_fst]
    exact V2.recordedCause_Cancel_of_cancelFree hfree (some c) cs
  have h₂ : (V2.Wait (V2.Close g' cs₁ cs₂)).1
      = some (Err.traced (Err.traced Err.closed cs₁) cs₂) := by
    rw [V2.Wait_fst]
    exact V2.recordedCause_Cancel_of_cancelFree hfree' (some (Err.traced Err.closed cs₁)) cs₂
  exact ⟨h₁, Err.is_traced_self c cs, h₂,
    Err.is_of_inner (Err.is_traced_self Err.closed cs₁) cs₂⟩

/-- Witness for C9: a user error cause and a Close, on fresh groups. -/
theorem C9_cause_attribution_witness :
    (Err.traced (Err.user 5) 2).is (Err.user 5) = true
    ∧ (V2.Wait (V2.Close (V2.New V2.background) 3 4)).1
        = some (Err.traced (Err.traced Err.closed 3) 4)
    ∧ (Err.traced (Err.traced Err.closed 3) 4).is Err.closed = true :=
  ⟨(C9_cause_attribution (V2.New V2.background) (V2.New V2.background) (Err.user 5) 2 3 4
      (by decide) (by decide) (by decide) (by decide)).2.1,
   (C9_cause_attribution (V2.New V2.background) (V2.New V2.background) (Err.user 5) 2 3 4
      (by decide) (by decide) (by decide) (by decide)).2.2.1,
   (C9_cause_attribution (V2.New V2.background) (V2.New V2.background) (Err.user 5) 2 3 4
      (by decide) (by decide) (by decide) (by decide)).2.2.2⟩

theorem V2.liveCtx_eq {g : V2.Group} (h : V2.liveCtx g = true) : g.ctx = some ⟨none⟩ := by
  cases g with
  | mk ctx tr un =>
    cases ctx with
    | none => simp [V2.liveCtx] at h
    | some cx =>
      cases cx with
      | mk cause =>
        cases cause with
        | none => rfl
        | some e => simp [V2.liveCtx] at h

theorem V2.rawCancel_of_live {g : V2.Group} (h : V2.liveCtx g = true) (e : Err) :
    V2.rawCancel g e = { g with ctx := some ⟨some e⟩ } := by
  have hc := V2.liveCtx_eq h
  cases g with
  | mk ctx tr un =>
    simp only at hc
    subst hc
    simp [V2.rawCancel, V2.Ctx.cancel]

/-- C6: GoCancelOnSuccess cancels the group if and only if its task
returns without failure, and GoCancelOnError cancels if and only if its
task returns a failure, recording that failure as the cause. When the
condition fails the body leaves the state of every group untouched; when
it holds, on a group with a live context, exactly the stated cause is
recorded. -/
theorem C6_success_error_asymmetry (g : V2.Group) (e : Err) (cs : Nat)
    (hlive : V2.liveCtx g = true) :
    (∀ g' : V2.Group, V2.goCancelOnSuccessBody g' (some e) cs = g')
    ∧ V2.recordedCause (V2.goCancelOnSuccessBody g none cs) = some (Err.traced Err.canceled cs)
    ∧ (∀ g' : V2.Group, V2.goCancelOnErrorBody g' none cs = g')
    ∧ V2.recordedCause (V2.goCancelOnErrorBody g (some e) cs) = some (Err.traced e cs)
    ∧ (Err.traced e cs).is e = true := by
  refine ⟨fun g' => rfl, ?_, fun g' => rfl, ?_, Err.is_traced_self e cs⟩
  · show V2.recordedCause (V2.rawCancel g (Err.traced Err.canceled cs)) = _
    rw [V2.rawCancel_of_live hlive]
    simp [V2.recordedCause]
  · show V2.recordedCause (V2.rawCancel g (Err.traced e cs)) = _
    rw [V2.rawCancel_of_live hlive]
    simp [V2.recordedCause]

/-- Witness for C6 on a fresh group and the user error 9. -/
theorem C6_success_error_asymmetry_witness :
    V2.goCancelOnSuccessBody (V2.New V2.background) (some (Err.user 9)) 0 = V2.New V2.background
    ∧ V2.recordedCause (V2.goCancelOnSuccessBody (V2.New V2.background) none 0)
        = some (Err.traced Err.canceled 0)
    ∧ V2.goCancelOnErrorBody (V2.New V2.background) none 0 = V2.New V2.background
    ∧ V2.recordedCause (V2.goCancelOnErrorBody (V2.New V2.background) (some (Err.user 9)) 0)
        = some (Err.traced (Err.user 9) 0) :=
  ⟨(C6_success_error_asymmetry (V2.New V2.background) (Err.user 9) 0 (by decide)).1
      (V2.New V2.background),
   (C6_success_error_asymmetry (V2.New V2.background) (Err.user 9) 0 (by decide)).2.1,
   (C6_success_error_asymmetry (V2.New V2.background) (Err.user 9) 0 (by decide)).2.2.1
      (V2.New V2.background),
   (C6_success_error_asymmetry (V2.New V2.background) (Err.user 9) 0 (by decide)).2.2.2.1⟩

/-- C4: a zero-value Group behaves identically to one built by New from
context.Background: the lazy getContext of the zero value produces exactly
the state New builds, getContext never replaces an already created
context (exactly-once creation), and every operation applied to the zero
value equals the same operation applied to the explicitly constructed
group. -/
theorem C4_zero_value_equiv (c : Option Err) (cs cs₁ cs₂ : Nat)
    (g : V2.Group) (cx : V2.Ctx) (hinit : g.ctx = some cx) :
    V2.getContext V2.zeroGroup = (V2.withCancelCause V2.background, V2.New V2.background)
    ∧ V2.getContext g = (cx, g)
    ∧ V2.Cancel V2.zeroGroup c cs = V2.Cancel (V2.New V2.background) c cs
    ∧ V2.Go V2.zeroGroup = V2.Go (V2.New V2.background)
    ∧ V2.Wait V2.zeroGroup = V2.Wait (V2.New V2.background)
    ∧ V2.Close V2.zeroGroup cs₁ cs₂ = V2.Close (V2.New V2.background) cs₁ cs₂
    ∧ V2.SetTimeout V2.zeroGroup = V2.SetTimeout (V2.New V2.background) :=
  ⟨rfl, V2.getContext_of_some hinit, rfl, rfl, rfl, rfl, rfl⟩

/-- Witness for C4 with the already initialized group built by New. -/
theorem C4_zero_value_equiv_witness :
    V2.getContext (V2.New V2.background) = (⟨none⟩, V2.New V2.background)
    ∧ V2.Wait V2.zeroGroup = V2.Wait (V2.New V2.background)
    ∧ V2.Cancel V2.zeroGroup (some (Err.user 1)) 0
        = V2.Cancel (V2.New V2.background) (some (Err.user 1)) 0 :=
  ⟨(C4_zero_value_equiv (some (Err.user 1)) 0 0 0 (V2.New V2.background) ⟨none⟩ rfl).2.1,
   (C4_zero_value_equiv (some (Err.user 1)) 0 0 0 (V2.New V2.background) ⟨none⟩ rfl).2.2.2.2.1,
   (C4_zero_value_equiv (some (Err.user 1)) 0 0 0 (V2.New V2.background) ⟨none⟩ rfl).2.2.1⟩

/-- C2 counterexample: on a fresh v2 group, Wait returns without mutating
the state at all: the context is still live (no final cancellation with a
nil cause is performed, so the resources backing the context are not
released) and nothing marks the group non-reusable. -/
theorem C2_wait_counterexample :
    V2.Wait (V2.New V2.background) = (none, V2.New V2.background)
    ∧ V2.recordedCause (V2.Wait (V2.New V2.background)).2 = none
    ∧ (V2.Wait (V2.New V2.background)).2.ctx = some ⟨none⟩
    ∧ V2.Ctx.cancelled ⟨none⟩ = false := by decide

/-- C2 amended: in v1, Wait marks the group non-reusable, performs a final
setResult with a nil cause (so the context is cancelled and its resources
released even when no task ever cancelled the group) and returns the
recorded cause, nil when no cancellation-path invocation and no explicit
Cancel ever happened. In v2, Wait only returns the recorded cause (nil if
cancellation never happened) and performs no mutation beyond the lazy
initialization: no final cancellation, no reuse mark; releasing the
context requires an explicit Cancel or Close. The hypothesis hinv is the
v1 reachability invariant that the sync.Once fires together with the
context cancellation. -/
theorem C2_wait_final_cancel (g : V1.Group) (hc : g.created = true) (htr : g.tracked = 0)
    (hinv : g.errOnce = true → g.ctxCancelled = true)
    (g₂ : V2.Group) (htr₂ : g₂.tracked = 0) :
    (∃ r gw, V1.Wait g = Except.ok (r, gw)
      ∧ gw.doNotReuse = true
      ∧ gw.ctxCancelled = true
      ∧ r = (if g.errOnce then g.err else none))
    ∧ (V2.Wait g₂).1 = V2.recordedCause g₂
    ∧ (V2.Wait g₂).2 = (V2.getContext g₂).2 := by
  refine ⟨⟨(V1.setResult { g with doNotReuse := true } none).err,
           V1.setResult { g with doNotReuse := true } none, ?_, ?_, ?_, ?_⟩,
          V2.Wait_fst g₂, V2.Wait_snd g₂⟩
  · simp [V1.Wait, hc]
  · by_cases ho : g.errOnce <;> simp [V1.setResult, ho]
  · by_cases ho : g.errOnce
    · simp [V1.setResult, ho, hinv ho]
    · simp [V1.setResult, ho]
  · by_cases ho : g.errOnce <;> simp [V1.setResult, ho]

/-- Witness for C2 amended, on a fresh v1 group and the v2 zero value. -/
theorem C2_wait_final_cancel_witness :
    (∃ r gw, V1.Wait V1.New = Except.ok (r, gw)
      ∧ gw.doNotReuse = true
      ∧ gw.ctxCancelled = true
      ∧ r = (if V1.New.errOnce then V1.New.err else none))
    ∧ (V2.Wait V2.zeroGroup).1 = V2.recordedCause V2.zeroGroup :=
  ⟨(C2_wait_final_cancel V1.New rfl rfl (by decide) V2.zeroGroup rfl).1,
   (C2_wait_final_cancel V1.New rfl rfl (by decide) V2.zeroGroup rfl).2.1⟩

/-- C3 counterexample: on a v2 group on which Wait has already been
invoked, Go does not fault: it silently registers a new tracked task (the
waitgroup count goes from zero to one), and the state Wait left behind is
the unmodified group, with no mark recording that Wait happened. -/
theorem C3_reuse_counterexample :
    V2.Go (V2.Wait (V2.New V2.background)).2 = { V2.New V2.background with tracked := 1 }
    ∧ (V2.Wait (V2.New V2.background)).2 = V2.New V2.background := by decide

/-- C3 amended: in v1, Go called after Wait has returned panics
deterministically, every time, with the reuse message; in v2, Go called
after Wait never faults and silently registers the task, incrementing the
tracked count of the state Wait left. -/
theorem C3_reuse_fault (g : V1.Group) (r : Option Err) (gw : V1.Group)
    (hw : V1.Wait g = Except.ok (r, gw)) (g₂ : V2.Group) :
    V1.Go gw = Except.error V1.reuseMsg
    ∧ V2.Go (V2.Wait g₂).2 = { (V2.Wait g₂).2 with tracked := (V2.Wait g₂).2.tracked + 1 } := by
  constructor
  · cases hcr : g.created with
    | false => simp [V1.Wait, hcr] at hw
    | true =>
      simp only [V1.Wait, hcr, Bool.not_true, Bool.false_eq_true, if_false,
        Except.ok.injEq, Prod.mk.injEq] at hw
      obtain ⟨hr, hgw⟩ := hw
      subst hgw
      by_cases ho : g.errOnce <;> simp [V1.Go, V1.setResult, ho, hcr]
  · cases g₂ with
    | mk ctx tr un =>
      cases ctx <;> simp [V2.Go, V2.Wait, V2.getContext]

/-- Witness for C3 amended: the group v1 Wait leaves behind rejects Go,
and v2 Go after Wait on the zero value registers a task. -/
theorem C3_reuse_fault_witness :
    V1.Go { created := true, ctxCancelled := true, errOnce := true, err := none,
            doNotReuse := true, tracked := 0 } = Except.error V1.reuseMsg
    ∧ V2.Go (V2.Wait V2.zeroGroup).2
        = { (V2.Wait V2.zeroGroup).2 with tracked := (V2.Wait V2.zeroGroup).2.tracked + 1 } :=
  ⟨(C3_reuse_fault V1.New none
      { created := true, ctxCancelled := true, errOnce := true, err := none,
        doNotReuse := true, tracked := 0 } rfl V2.zeroGroup).1,
   (C3_reuse_fault V1.New none
      { created := true, ctxCancelled := true, errOnce := true, err := none,
        doNotReuse := true, tracked := 0 } rfl V2.zeroGroup).2⟩

/-- C5 counterexample: v2 SetTimeout does not register its goroutine
through the Go registration path: the tracked completion count of the
group is unchanged (so Wait does not wait for it), whereas Go increments
it; the goroutine is spawned outside the waitgroup. -/
theorem C5_settimeout_counterexample :
    (V2.SetTimeout (V2.New V2.background)).tracked = (V2.New V2.background).tracked
    ∧ (V2.Go (V2.New V2.background)).tracked = (V2.New V2.background).tracked + 1
    ∧ (V2.SetTimeout (V2.New V2.background)).untracked
        = (V2.New V2.background).untracked + 1 := by decide

/-- C5 amended: v1 NewTimeout registers its timeout task through Go, so it
is tracked by the completion count; the body waits for the duration or
the group context, and when the duration fires first it reports
context.DeadlineExceeded, which the completion path records as the cause,
while if the context is cancelled first the body reports
context.Canceled, so no deadline cause enters. v2 SetTimeout instead
spawns an untracked goroutine, not registered through Go and not awaited
by Wait, whose body cancels the group with the call-site wrapped
context.DeadlineExceeded when the timer fires first and does nothing when
the context is cancelled first. -/
theorem C5_timeout_task (g : V2.Group) (cs : Nat) (hlive : V2.liveCtx g = true)
    (g₁ : V1.Group) (hone : g₁.errOnce = false) :
    V1.NewTimeout = Except.ok { V1.New with tracked := 1 }
    ∧ V1.newTimeoutTaskResult true = some Err.deadlineExceeded
    ∧ (V1.taskFinish g₁ (V1.newTimeoutTaskResult true)).err = some Err.deadlineExceeded
    ∧ V1.newTimeoutTaskResult false = some Err.canceled
    ∧ (∀ g₂ : V2.Group, V2.SetTimeout g₂
        = { (V2.getContext g₂).2 with untracked := (V2.getContext g₂).2.untracked + 1 })
    ∧ V2.recordedCause (V2.setTimeoutBody g true cs)
        = some (Err.traced Err.deadlineExceeded cs)
    ∧ (∀ (g₂ : V2.Group) (k : Nat), V2.setTimeoutBody g₂ false k = g₂) := by
  refine ⟨rfl, rfl, ?_, rfl, ?_, ?_, fun g₂ k => rfl⟩
  · simp [V1.taskFinish, V1.setResult, V1.newTimeoutTaskResult, hone]
  · intro g₂
    cases g₂ with
    | mk ctx tr un =>
      cases ctx <;> simp [V2.SetTimeout, V2.getContext]
  · show V2.recordedCause (V2.rawCancel g (Err.traced Err.deadlineExceeded cs)) = _
    rw [V2.rawCancel_of_live hlive]
    simp [V2.recordedCause]

/-- Witness for C5 amended on fresh groups. -/
theorem C5_timeout_task_witness :
    (V1.taskFinish V1.New (V1.newTimeoutTaskResult true)).err = some Err.deadlineExceeded
    ∧ V2.recordedCause (V2.setTimeoutBody (V2.New V2.background) true 6)
        = some (Err.traced Err.deadlineExceeded 6) :=
  ⟨(C5_timeout_task (V2.New V2.background) 6 (by decide) V1.New (by decide)).2.2.1,
   (C5_timeout_task (V2.New V2.background) 6 (by decide) V1.New (by decide)).2.2.2.2.2.1⟩

/-- C7 counterexample: in v1, a plain Go task returning nil is recorded
as-is: the first completing task runs setResult with a nil error, and the
terminal Wait returns no error rather than the canonical cancellation
cause, even though the context was cancelled. -/
theorem C7_nil_counterexample :
    V1.Go V1.New = Except.ok { V1.New with tracked := 1 }
    ∧ V1.taskFinish { V1.New with tracked := 1 } none
        = { V1.New with errOnce := true, ctxCancelled := true }
    ∧ V1.Wait { V1.New with errOnce := true, ctxCancelled := true }
        = Except.ok (none,
            { V1.New with errOnce := true, ctxCancelled := true, doNotReuse := true })
    ∧ (none : Option Err) ≠ some Err.canceled := by
  refine ⟨rfl, rfl, rfl, by decide⟩

/-- C7 amended: under the unconditional policy the group is cancelled
whenever the task returns, for any outcome; v2 GoCancelOnFinish
normalizes a nil result to context.Canceled before recording, while v1
plain Go records the returned result unchanged — a nil result is recorded
as nil (Wait reports no error) although the context is still cancelled; a
failing result propagates as the cause in both variants. -/
theorem C7_unconditional_policy (g : V2.Group) (e : Err) (cs : Nat)
    (hlive : V2.liveCtx g = true)
    (g₁ : V1.Group) (hone : g₁.errOnce = false) :
    V2.recordedCause (V2.goCancelOnFinishBody g none cs) = some (Err.traced Err.canceled cs)
    ∧ V2.recordedCause (V2.goCancelOnFinishBody g (some e) cs) = some (Err.traced e cs)
    ∧ (Err.traced e cs).is e = true
    ∧ (V1.taskFinish g₁ none).ctxCancelled = true
    ∧ (V1.taskFinish g₁ none).err = none
    ∧ (V1.taskFinish g₁ (some e)).ctxCancelled = true
    ∧ (V1.taskFinish g₁ (some e)).err = some e := by
  refine ⟨?_, ?_, Err.is_traced_self e cs, ?_, ?_, ?_, ?_⟩
  · show V2.recordedCause (V2.rawCancel g (Err.traced Err.canceled cs)) = _
    rw [V2.rawCancel_of_live hlive]
    simp [V2.recordedCause]
  · show V2.recordedCause (V2.rawCancel g (Err.traced e cs)) = _
    rw [V2.rawCancel_of_live hlive]
    simp [V2.recordedCause]
  · simp [V1.taskFinish, V1.setResult, hone]
  · simp [V1.taskFinish, V1.setResult, hone]
  · simp [V1.taskFinish, V1.setResult, hone]
  · simp [V1.taskFinish, V1.setResult, hone]

/-- Witness for C7 amended on fresh groups and the user error 8. -/
theorem C7_unconditional_policy_witness :
    V2.recordedCause (V2.goCancelOnFinishBody (V2.New V2.background) none 1)
        = some (Err.traced Err.canceled 1)
    ∧ (V1.taskFinish V1.New (some (Err.user 8))).err = some (Err.user 8) :=
  ⟨(C7_unconditional_policy (V2.New V2.background) (Err.user 8) 1 (by decide)
      V1.New (by decide)).1,
   (C7_unconditional_policy (V2.New V2.background) (Err.user 8) 1 (by decide)
      V1.New (by decide)).2.2.2.2.2.2⟩

/-- C10: waiting repeatedly never faults: in v2, Wait applied to the state
a previous Wait left returns exactly the same result and state; in v1,
whenever a Wait call returned a result, calling Wait again on the state
it left returns the same result without fault. -/
theorem C10_wait_repeatable (g₂ : V2.Group) (htr : g₂.tracked = 0)
    (g : V1.Group) (r : Option Err) (gw : V1.Group)
    (hw : V1.Wait g = Except.ok (r, gw)) :
    V2.Wait (V2.Wait g₂).2 = V2.Wait g₂
    ∧ V1.Wait gw = Except.ok (r, gw) := by
  constructor
  · cases g₂ with
    | mk ctx tr un =>
      cases ctx <;> simp [V2.Wait, V2.getContext]
  · cases hcr : g.created with
    | false => simp [V1.Wait, hcr] at hw
    | true =>
      simp only [V1.Wait, hcr, Bool.not_true, Bool.false_eq_true, if_false,
        Except.ok.injEq, Prod.mk.injEq] at hw
      obtain ⟨hr, hgw⟩ := hw
      subst hgw
      subst hr
      by_cases ho : g.errOnce <;> simp [V1.Wait, V1.setResult, ho, hcr]

/-- Witness for C10: double Wait on the v2 zero value and on a fresh v1
group. -/
theorem C10_wait_repeatable_witness :
    V2.Wait (V2.Wait V2.zeroGroup).2 = V2.Wait V2.zeroGroup
    ∧ V1.Wait { created := true, ctxCancelled := true, errOnce := true, err := none,
                doNotReuse := true, tracked := 0 }
        = Except.ok (none,
            { created := true, ctxCancelled := true, errOnce := true, err := none,
              doNotReuse := true, tracked := 0 }) :=
  ⟨(C10_wait_repeatable V2.zeroGroup rfl V1.New none
      { created := true, ctxCancelled := true, errOnce := true, err := none,
        doNotReuse := true, tracked := 0 } rfl).1,
   (C10_wait_repeatable V2.zeroGroup rfl V1.New none
      { created := true, ctxCancelled := true, errOnce := true, err := none,
        doNotReuse := true, tracked := 0 } rfl).2⟩
